import Mathlib

/-
Shallow embedding of the process-supervision core of
src/tauri-ui/src-tauri/src/main.rs (the Tauri shell of the Suhana
backend supervisor).  Filesystem checks, module-import checks, the pip
invocation outcome, path canonicalization, the spawn outcome and the
health endpoint are modelled as oracles supplied through an environment
record; every observable action of the program (window show/close,
child-process invocation, console logging, UI event emission, the
readiness-flag store, HTTP polling and sleeping) is recorded as an
explicit event so that ordering and counting properties can be stated
over traces.
-/

namespace Suhana

/-- Rust Path::join with a single string component (the separator choice
is irrelevant to every property proved below). -/
def pjoin (a b : String) : String := a ++ "/" ++ b

/-- Stdio configuration of a spawned child process, as in
std::process::Stdio: null (suppressed), piped (captured) or inherited. -/
inductive Stdio where
  | null
  | piped
  | inherit
deriving DecidableEq

/-- One child-process invocation: program, argument list, optional working
directory and the configuration of its two output streams. -/
structure Invocation where
  prog : String
  args : List String
  cwd : Option String
  stdout : Stdio
  stderr : Stdio
deriving DecidableEq

/-- Observable actions of the supervisor.  closeWindow models the
splashscreen_window.close() call of main.rs line 199 (the splash-hide
action); storeFlag models the atomic store into the shared loaded flag. -/
inductive Event where
  | showWindow (label : String)
  | closeWindow (label : String)
  | spawn (inv : Invocation)
  | logOut (s : String)
  | logErr (s : String)
  | emitEvent (window : String) (name : String) (line : String)
  | storeFlag (b : Bool)
  | setPosition (x : Int) (y : Int)
  | moveCenter
  | httpGet (url : String)
  | sleepMs (n : Nat)
deriving DecidableEq

/-- MUST_HAVE_MODULES of main.rs lines 17-21. -/
def MUST_HAVE_MODULES : List String := ["fastapi", "uvicorn", "pydantic"]

/-- The ordered interpreter candidate list of resolve_python_path
(main.rs lines 24-34), per platform. -/
def pythonCandidates (isWindows : Bool) (project_root : String) : List String :=
  if isWindows then
    [pjoin project_root "..\\.venv\\Scripts\\python.exe",
     pjoin project_root "..\\venv\\Scripts\\python.exe"]
  else
    [pjoin project_root "../.venv/bin/python",
     pjoin project_root "../venv/bin/python"]

/-- The candidate loop of main.rs lines 36-40: first path whose
existence check succeeds. -/
def firstExisting (pexists : String → Bool) : List String → Option String
  | [] => none
  | p :: rest => if pexists p then some p else firstExisting pexists rest

/-- resolve_python_path of main.rs lines 23-44, with the filesystem
existence test supplied as an oracle. -/
def resolve_python_path (isWindows : Bool) (pexists : String → Bool)
    (project_root : String) : String :=
  match firstExisting pexists (pythonCandidates isWindows project_root) with
  | some p => p
  | none => "python"

/-- The import-check invocation of main.rs lines 48-52: interpreter run
with -c "import m", stdout and stderr suppressed, no working directory. -/
def checkInv (python m : String) : Invocation :=
  ⟨python, ["-c", "import " ++ m], none, Stdio.null, Stdio.null⟩

/-- The loop body of deps_missing (main.rs lines 46-61) over an arbitrary
module list: invoke the interpreter per module in order, stop and report
missing at the first failed import.  importOk m is the oracle for
"the import-check child exited successfully" (status errors map to
false via unwrap_or(false) in the source). -/
def deps_missing_go (importOk : String → Bool) (python : String) :
    List String → Bool × List Event
  | [] => (false, [])
  | m :: rest =>
    if importOk m then
      ((deps_missing_go importOk python rest).1,
        Event.spawn (checkInv python m) :: (deps_missing_go importOk python rest).2)
    else
      (true, [Event.spawn (checkInv python m),
              Event.logErr ("Missing Python module: " ++ m)])

/-- deps_missing of main.rs lines 46-61: the loop instantiated at
MUST_HAVE_MODULES.  Returns (missing?, trace of invocations and logs). -/
def deps_missing (importOk : String → Bool) (python : String) : Bool × List Event :=
  deps_missing_go importOk python MUST_HAVE_MODULES

/-- The pip invocation of main.rs lines 66-70: interpreter -m pip install
-r requirements.txt, run in the project root's parent with both streams
inherited (Command::status defaults). -/
def pipInv (python project_root : String) : Invocation :=
  ⟨python, ["-m", "pip", "install", "-r", pjoin project_root "../requirements.txt"],
   some (pjoin project_root ".."), Stdio.inherit, Stdio.inherit⟩

/-- install_requirements of main.rs lines 63-82.  pip is the oracle for
the Command::status call: error e models an io::Error (propagated by the
question-mark operator), ok b models an exit status with success b. -/
def install_requirements (pexists : String → Bool) (pip : Except String Bool)
    (python project_root : String) : Except String Unit × List Event :=
  if pexists (pjoin project_root "../requirements.txt") then
    match pip with
    | Except.error e => (Except.error e, [Event.spawn (pipInv python project_root)])
    | Except.ok ok =>
      if !ok then
        (Except.ok (), [Event.spawn (pipInv python project_root),
                        Event.logErr "Failed to install requirements.txt"])
      else
        (Except.ok (), [Event.spawn (pipInv python project_root),
                        Event.logOut "requirements.txt installed successfully"])
  else
    (Except.ok (), [Event.logOut "ℹrequirements.txt not found, skipping installation"])

/-- The fixed health endpoint of main.rs line 88. -/
def healthUrl : String := "http://127.0.0.1:8000/health"

/-- The bounded poll loop of wait_for_api_ready (main.rs lines 87-96):
one HTTP GET per iteration, return true on the first success, otherwise
sleep 500 ms and retry; health i tells whether the i-th call (0-based)
yields an Ok response. -/
def pollLoop (health : Nat → Bool) : Nat → Nat → Bool × List Event
  | _, 0 => (false, [])
  | i, fuel + 1 =>
    if health i then
      (true, [Event.httpGet healthUrl])
    else
      ((pollLoop health (i + 1) fuel).1,
        Event.httpGet healthUrl :: Event.sleepMs 500 :: (pollLoop health (i + 1) fuel).2)

/-- wait_for_api_ready of main.rs lines 84-98: max_retries = 20,
delay = 500 ms. -/
def wait_for_api_ready (health : Nat → Bool) : Bool × List Event :=
  pollLoop health 0 20

/-- Monitor geometry as returned by monitor_from_point: physical position
and size (coordinates modelled as unbounded integers; only the control
flow of the helper matters to any claim). -/
structure Monitor where
  posX : Int
  posY : Int
  width : Nat
  height : Nat
deriving DecidableEq

/-- center_window of main.rs lines 100-120.  cursor models the
cursor_position query (none = Err), monitorFromPoint the
monitor_from_point query (error = Err, ok none = Ok(None)), outerSize
the win.outer_size query.  The arithmetic uses truncating division as
Rust i32 division does. -/
def center_window (cursor : Option (Int × Int))
    (monitorFromPoint : Int → Int → Except Unit (Option Monitor))
    (outerSize : Except Unit (Nat × Nat)) : List Event :=
  match cursor with
  | none => []
  | some c =>
    match monitorFromPoint c.1 c.2 with
    | Except.ok (some mon) =>
      match outerSize with
      | Except.ok s =>
        [Event.setPosition (mon.posX + Int.tdiv ((mon.width : Int) - (s.1 : Int)) 2)
                           (mon.posY + Int.tdiv ((mon.height : Int) - (s.2 : Int)) 2)]
      | Except.error _ => []
    | Except.ok none => [Event.moveCenter]
    | Except.error _ => [Event.moveCenter]

/-- Environment oracle for one run of the setup closure of main
(main.rs lines 124-203): every outcome the program observes from the
operating system, the filesystem, the toolkit and the network. -/
structure SetupEnv where
  isWindows : Bool
  pexists : String → Bool
  importOk : String → Bool
  manifestPip : Except String Bool
  canon : Option String
  spawnOk : Bool
  cwd : Option String
  parentOfCwd : Option String
  cursor : Option (Int × Int)
  monitorFromPoint : Int → Int → Except Unit (Option Monitor)
  outerSize : String → Except Unit (Nat × Nat)

/-- The UI actions of main.rs lines 127-132 that precede all process
work: center and show the splash window, then center the main window. -/
def uiEvents (e : SetupEnv) : List Event :=
  center_window e.cursor e.monitorFromPoint (e.outerSize "splashscreen") ++
  [Event.showWindow "splashscreen"] ++
  center_window e.cursor e.monitorFromPoint (e.outerSize "main")

/-- The dependency phase of main.rs lines 145-150: run the import check;
if something is missing, run install_requirements and log a propagated
io error. -/
def depsPhase (e : SetupEnv) (project_root : String) : List Event :=
  let python := resolve_python_path e.isWindows e.pexists project_root
  if (deps_missing e.importOk python).1 then
    (deps_missing e.importOk python).2 ++
      (install_requirements e.pexists e.manifestPip python project_root).2 ++
      (match (install_requirements e.pexists e.manifestPip python project_root).1 with
       | Except.error msg => [Event.logErr ("Dependency installation error: " ++ msg)]
       | Except.ok _ => [])
  else
    (deps_missing e.importOk python).2

/-- The worker spawn of main.rs lines 155-161: interpreter, canonical
script path plus an explicit port flag, working directory the project
root's parent, both output streams piped. -/
def workerInv (python api_path project_root : String) : Invocation :=
  ⟨python, [api_path, "--port", "8000"], some (pjoin project_root ".."),
   Stdio.piped, Stdio.piped⟩

/-- The setup closure of main (main.rs lines 124-203) up to the point
where the three worker threads are spawned.  Returns the event trace and
none on success, or the trace up to the panic together with the panic
diagnostic (the expect messages of lines 142, 143, 153 and 161). -/
def setup (e : SetupEnv) : List Event × Option String :=
  match e.cwd with
  | none => (uiEvents e, some "Couldn't get current dir")
  | some _ =>
    match e.parentOfCwd with
    | none => (uiEvents e, some "Couldn't get project root")
    | some project_root =>
      match e.canon with
      | none => (uiEvents e ++ depsPhase e project_root,
                 some "Could not resolve api_server.py path")
      | some api_path =>
        (uiEvents e ++ depsPhase e project_root ++
           [Event.spawn (workerInv
             (resolve_python_path e.isWindows e.pexists project_root)
             api_path project_root)],
         if e.spawnOk then none else some "Failed to start Suhana backend")

/-- Per-line routing of the two relay threads (main.rs lines 170-188):
flag is the value the thread reads from the shared loaded flag at the
moment it processes the line; isErr distinguishes the stderr thread. -/
def relayLine (isErr : Bool) (flag : Bool) (line : String) : Event :=
  if !flag then Event.emitEvent "splashscreen" "backend-log" line
  else if isErr then Event.logErr line
  else Event.logOut line

/-- Trace of one relay thread over the sequence of lines it reads, each
paired with the readiness-flag value observed when that line is
processed. -/
def relayTrace (isErr : Bool) : List (String × Bool) → List Event
  | [] => []
  | p :: rest => relayLine isErr p.2 p.1 :: relayTrace isErr rest

/-- The readiness-gate thread of main.rs lines 191-201: poll, log the
outcome, store the flag, close the splash window, show the main
window. -/
def gateThread (health : Nat → Bool) : List Event :=
  (wait_for_api_ready health).2 ++
  (if (wait_for_api_ready health).1 then
     [Event.logOut "Backend ready"]
   else
     [Event.logErr "Backend not responding in time"]) ++
  [Event.storeFlag true, Event.closeWindow "splashscreen", Event.showWindow "main"]

/-- zs is an arbitrary interleaving of xs and ys (each kept in order). -/
inductive Merge2 : List Event → List Event → List Event → Prop where
  | nil : Merge2 [] [] []
  | left (a : Event) {xs ys zs : List Event} :
      Merge2 xs ys zs → Merge2 (a :: xs) ys (a :: zs)
  | right (a : Event) {xs ys zs : List Event} :
      Merge2 xs ys zs → Merge2 xs (a :: ys) (a :: zs)

/-- A complete run trace: the setup completes without a panic, and the
events after setup are an arbitrary interleaving of the two relay
threads and the gate thread. -/
def RunTrace (e : SetupEnv) (outL errL : List (String × Bool))
    (health : Nat → Bool) (z : List Event) : Prop :=
  (setup e).2 = none ∧
  ∃ m w, Merge2 (relayTrace false outL) (relayTrace true errL) m ∧
         Merge2 m (gateThread health) w ∧
         z = (setup e).1 ++ w

/-- The UI-critical events of the readiness handoff: any store to the
readiness flag, the splash-hide action and the main-show action. -/
def criticalEv : Event → Bool
  | Event.storeFlag _ => true
  | Event.closeWindow "splashscreen" => true
  | Event.showWindow "main" => true
  | _ => false

/-- A spawn whose stdout is piped: among all invocations the supervisor
performs, exactly the worker spawn has this shape. -/
def pipedSpawn : Event → Bool
  | Event.spawn ⟨_, _, _, Stdio.piped, _⟩ => true
  | _ => false

/-- The main-show action alone. -/
def mainShow : Event → Bool
  | Event.showWindow "main" => true
  | _ => false

/-- A benign environment used by the concrete-run witnesses: no virtual
environment, all modules importable, canonicalization and spawn
succeed, window-geometry queries fail harmlessly. -/
def simpleEnv : SetupEnv where
  isWindows := false
  pexists := fun _ => false
  importOk := fun _ => true
  manifestPip := Except.ok true
  canon := some "/app/api_server.py"
  spawnOk := true
  cwd := some "/app/suhana/tauri-ui"
  parentOfCwd := some "/app/suhana"
  cursor := none
  monitorFromPoint := fun _ _ => Except.ok none
  outerSize := fun _ => Except.error ()

/-- simpleEnv except that canonicalization of the worker script fails. -/
def badCanonEnv : SetupEnv :=
  { simpleEnv with canon := none }

/-- Environment in which a module is missing, the manifest exists and
pip fails with a non-success exit status. -/
def failedInstallEnv : SetupEnv :=
  { simpleEnv with
      pexists := fun _ => true
      importOk := fun _ => false
      manifestPip := Except.ok false }

/-- The child invocations recorded in a trace, in order. -/
def spawnsOf (t : List Event) : List Invocation :=
  t.filterMap fun ev =>
    match ev with
    | Event.spawn inv => some inv
    | _ => none

/-- The modules the dependency check actually examines: every module up
to and including the first one whose import fails (all of them when none
fails). -/
def checkedMods (importOk : String → Bool) : List String → List String
  | [] => []
  | m :: rest => if importOk m then m :: checkedMods importOk rest else [m]

/-- Health oracle that first succeeds on the fifth call (0-based index
4); used by the poll-schedule witness. -/
def health5 : Nat → Bool := fun j => decide (4 ≤ j)

/-- Demo stdout lines for the run-trace witness: one line before the
readiness transition, one after. -/
def demoOut : List (String × Bool) := [("starting", false), ("listening", true)]

/-- Demo stderr lines for the run-trace witness. -/
def demoErr : List (String × Bool) := [("warning", false)]

/-- A concrete complete run trace over simpleEnv in which the relay
traces precede the gate trace. -/
def demoRun : List Event :=
  (setup simpleEnv).1 ++
    ((relayTrace false demoOut ++ relayTrace true demoErr) ++
      gateThread (fun _ => true))

/-- An HTTP call event. -/
def isHttpGet : Event → Bool
  | Event.httpGet _ => true
  | _ => false

/-- A sleep event. -/
def isSleep : Event → Bool
  | Event.sleepMs _ => true
  | _ => false

/-- Import oracle for the short-circuit witness: only fastapi is
importable, so the check stops at uvicorn and never examines pydantic. -/
def demoImportOk : String → Bool := fun m => m == "fastapi"

/-- Existence oracle for the resolver witness: only the second candidate
(the venv layout) exists. -/
def demoExists : String → Bool := fun p => p == pjoin "/app/suhana" "../venv/bin/python"

@[simp] theorem criticalEv_setPosition (x y : Int) :
    criticalEv (Event.setPosition x y) = false := rfl

@[simp] theorem criticalEv_moveCenter : criticalEv Event.moveCenter = false := rfl

@[simp] theorem criticalEv_emitEvent (w n l : String) :
    criticalEv (Event.emitEvent w n l) = false := rfl

@[simp] theorem criticalEv_logOut (s : String) :
    criticalEv (Event.logOut s) = false := rfl

@[simp] theorem criticalEv_logErr (s : String) :
    criticalEv (Event.logErr s) = false := rfl

@[simp] theorem criticalEv_spawn (inv : Invocation) :
    criticalEv (Event.spawn inv) = false := rfl

@[simp] theorem criticalEv_httpGet (u : String) :
    criticalEv (Event.httpGet u) = false := rfl

@[simp] theorem criticalEv_sleepMs (n : Nat) :
    criticalEv (Event.sleepMs n) = false := rfl

@[simp] theorem criticalEv_showSplash :
    criticalEv (Event.showWindow "splashscreen") = false := by decide

@[simp] theorem criticalEv_storeFlag (b : Bool) :
    criticalEv (Event.storeFlag b) = true := rfl

@[simp] theorem criticalEv_closeSplash :
    criticalEv (Event.closeWindow "splashscreen") = true := by decide

@[simp] theorem criticalEv_showMain :
    criticalEv (Event.showWindow "main") = true := by decide

@[simp] theorem pipedSpawn_checkInv (py m : String) :
    pipedSpawn (Event.spawn (checkInv py m)) = false := rfl

@[simp] theorem pipedSpawn_pipInv (py root : String) :
    pipedSpawn (Event.spawn (pipInv py root)) = false := rfl

@[simp] theorem pipedSpawn_workerInv (py api root : String) :
    pipedSpawn (Event.spawn (workerInv py api root)) = true := rfl

@[simp] theorem pipedSpawn_showWindow (l : String) :
    pipedSpawn (Event.showWindow l) = false := rfl

@[simp] theorem pipedSpawn_setPosition (x y : Int) :
    pipedSpawn (Event.setPosition x y) = false := rfl

@[simp] theorem pipedSpawn_moveCenter : pipedSpawn Event.moveCenter = false := rfl

@[simp] theorem pipedSpawn_logOut (s : String) :
    pipedSpawn (Event.logOut s) = false := rfl

@[simp] theorem pipedSpawn_logErr (s : String) :
    pipedSpawn (Event.logErr s) = false := rfl

@[simp] theorem mainShow_showSplash :
    mainShow (Event.showWindow "splashscreen") = false := by decide

@[simp] theorem mainShow_spawn (inv : Invocation) :
    mainShow (Event.spawn inv) = false := rfl

@[simp] theorem mainShow_setPosition (x y : Int) :
    mainShow (Event.setPosition x y) = false := rfl

@[simp] theorem mainShow_moveCenter : mainShow Event.moveCenter = false := rfl

@[simp] theorem mainShow_logOut (s : String) :
    mainShow (Event.logOut s) = false := rfl

@[simp] theorem mainShow_logErr (s : String) :
    mainShow (Event.logErr s) = false := rfl

theorem merge2_self_append (xs ys : List Event) : Merge2 xs ys (xs ++ ys) := by
  induction xs with
  | nil =>
    simp only [List.nil_append]
    induction ys with
    | nil => exact Merge2.nil
    | cons a t ih => exact Merge2.right a ih
  | cons a t ih => exact Merge2.left a ih

theorem merge2_nil_left_eq {xs ys zs : List Event} (h : Merge2 xs ys zs)
    (hx : xs = []) : zs = ys := by
  induction h with
  | nil => rfl
  | left a h ih => cases hx
  | right a h ih => rw [ih hx]

theorem merge2_filter (p : Event → Bool) {xs ys zs : List Event}
    (h : Merge2 xs ys zs) :
    Merge2 (xs.filter p) (ys.filter p) (zs.filter p) := by
  induction h with
  | nil => exact Merge2.nil
  | left a h ih =>
    by_cases hp : p a
    · simpa [List.filter_cons, hp] using Merge2.left a ih
    · simpa [List.filter_cons, hp] using ih
  | right a h ih =>
    by_cases hp : p a
    · simpa [List.filter_cons, hp] using Merge2.right a ih
    · simpa [List.filter_cons, hp] using ih

theorem center_window_filter (p : Event → Bool)
    (h1 : ∀ x y, p (Event.setPosition x y) = false)
    (h2 : p Event.moveCenter = false)
    (c : Option (Int × Int))
    (mfp : Int → Int → Except Unit (Option Monitor))
    (os : Except Unit (Nat × Nat)) :
    (center_window c mfp os).filter p = [] := by
  cases c with
  | none => rfl
  | some q =>
    cases hm : mfp q.1 q.2 with
    | error u => simp [center_window, hm, List.filter_cons, h2]
    | ok o =>
      cases o with
      | none => simp [center_window, hm, List.filter_cons, h2]
      | some mon =>
        cases hs : os with
        | error u => simp [center_window, hm, hs]
        | ok s => simp [center_window, hm, hs, List.filter_cons, h1]

theorem deps_go_filter (p : Event → Bool) (importOk : String → Bool) (py : String)
    (hspawn : ∀ m, p (Event.spawn (checkInv py m)) = false)
    (hlog : ∀ s, p (Event.logErr s) = false) :
    ∀ mods, ((deps_missing_go importOk py mods).2).filter p = [] := by
  intro mods
  induction mods with
  | nil => rfl
  | cons m rest ih =>
    by_cases h : importOk m
    · simp [deps_missing_go, h, List.filter_cons, hspawn, ih]
    · simp [deps_missing_go, h, List.filter_cons, hspawn, hlog]

theorem deps_missing_filter (p : Event → Bool) (importOk : String → Bool)
    (py : String)
    (hspawn : ∀ m, p (Event.spawn (checkInv py m)) = false)
    (hlog : ∀ s, p (Event.logErr s) = false) :
    ((deps_missing importOk py).2).filter p = [] :=
  deps_go_filter p importOk py hspawn hlog MUST_HAVE_MODULES

theorem install_filter (p : Event → Bool) (pexists : String → Bool)
    (pip : Except String Bool) (py root : String)
    (hspawn : p (Event.spawn (pipInv py root)) = false)
    (hlogE : ∀ s, p (Event.logErr s) = false)
    (hlogO : ∀ s, p (Event.logOut s) = false) :
    ((install_requirements pexists pip py root).2).filter p = [] := by
  unfold install_requirements
  by_cases h : pexists (pjoin root "../requirements.txt")
  · cases pip with
    | error e => simp [h, List.filter_cons, hspawn]
    | ok ok =>
      cases ok with
      | false => simp [h, List.filter_cons, hspawn, hlogE]
      | true => simp [h, List.filter_cons, hspawn, hlogO]
  · simp [h, List.filter_cons, hlogO]

theorem uiEvents_filter (p : Event → Bool)
    (h1 : ∀ x y, p (Event.setPosition x y) = false)
    (h2 : p Event.moveCenter = false)
    (h3 : p (Event.showWindow "splashscreen") = false)
    (e : SetupEnv) : (uiEvents e).filter p = [] := by
  unfold uiEvents
  rw [List.filter_append, List.filter_append]
  rw [center_window_filter p h1 h2, center_window_filter p h1 h2]
  simp [List.filter_cons, h3]

theorem depsPhase_filter (p : Event → Bool)
    (hspawnC : ∀ py m, p (Event.spawn (checkInv py m)) = false)
    (hspawnP : ∀ py root, p (Event.spawn (pipInv py root)) = false)
    (hlogE : ∀ s, p (Event.logErr s) = false)
    (hlogO : ∀ s, p (Event.logOut s) = false)
    (e : SetupEnv) (root : String) : (depsPhase e root).filter p = [] := by
  unfold depsPhase
  by_cases h : (deps_missing e.importOk (resolve_python_path e.isWindows e.pexists root)).1
  · simp only [h, if_true, List.filter_append]
    rw [deps_missing_filter p _ _ (hspawnC _) hlogE,
        install_filter p _ _ _ _ (hspawnP _ _) hlogE hlogO]
    cases hres : (install_requirements e.pexists e.manifestPip
        (resolve_python_path e.isWindows e.pexists root) root).1 with
    | error msg => simp [hres, List.filter_cons, hlogE]
    | ok u => simp [hres]
  · simp only [h, if_false]
    exact deps_missing_filter p _ _ (hspawnC _) hlogE

theorem pollLoop_filter (p : Event → Bool) (health : Nat → Bool)
    (hget : p (Event.httpGet healthUrl) = false)
    (hsleep : ∀ n, p (Event.sleepMs n) = false) :
    ∀ fuel i, ((pollLoop health i fuel).2).filter p = [] := by
  intro fuel
  induction fuel with
  | zero => intro i; rfl
  | succ n ih =>
    intro i
    by_cases h : health i
    · simp [pollLoop, h, List.filter_cons, hget]
    · simp [pollLoop, h, List.filter_cons, hget, hsleep, ih]

theorem relayLine_filter (p : Event → Bool)
    (hemit : ∀ w n l, p (Event.emitEvent w n l) = false)
    (hlogO : ∀ s, p (Event.logOut s) = false)
    (hlogE : ∀ s, p (Event.logErr s) = false)
    (isErr flag : Bool) (line : String) : p (relayLine isErr flag line) = false := by
  cases flag <;> cases isErr <;> simp [relayLine, hemit, hlogO, hlogE]

theorem relayTrace_filter (p : Event → Bool)
    (hemit : ∀ w n l, p (Event.emitEvent w n l) = false)
    (hlogO : ∀ s, p (Event.logOut s) = false)
    (hlogE : ∀ s, p (Event.logErr s) = false)
    (isErr : Bool) :
    ∀ input, (relayTrace isErr input).filter p = [] := by
  intro input
  induction input with
  | nil => rfl
  | cons q rest ih =>
    simp [relayTrace, List.filter_cons,
      relayLine_filter p hemit hlogO hlogE, ih]

theorem relayTrace_filter_critical (isErr : Bool) (input : List (String × Bool)) :
    (relayTrace isErr input).filter criticalEv = [] :=
  relayTrace_filter criticalEv (fun _ _ _ => rfl) (fun _ => rfl) (fun _ => rfl)
    isErr input

theorem gateThread_filter_critical (health : Nat → Bool) :
    (gateThread health).filter criticalEv =
      [Event.storeFlag true, Event.closeWindow "splashscreen",
       Event.showWindow "main"] := by
  unfold gateThread wait_for_api_ready
  rw [List.filter_append, List.filter_append]
  rw [pollLoop_filter criticalEv health rfl (fun _ => rfl)]
  split <;> simp [List.filter_cons]

theorem uiEvents_filter_critical (e : SetupEnv) :
    (uiEvents e).filter criticalEv = [] :=
  uiEvents_filter criticalEv (fun _ _ => rfl) rfl criticalEv_showSplash e

theorem depsPhase_filter_critical (e : SetupEnv) (root : String) :
    (depsPhase e root).filter criticalEv = [] :=
  depsPhase_filter criticalEv (fun _ _ => rfl) (fun _ _ => rfl)
    (fun _ => rfl) (fun _ => rfl) e root

theorem setup_filter_critical (e : SetupEnv) :
    ((setup e).1).filter criticalEv = [] := by
  unfold setup
  cases hc : e.cwd with
  | none => exact uiEvents_filter_critical e
  | some c =>
    cases hp : e.parentOfCwd with
    | none => exact uiEvents_filter_critical e
    | some root =>
      cases hcanon : e.canon with
      | none =>
        simp only [List.filter_append]
        rw [uiEvents_filter_critical e, depsPhase_filter_critical e root]
        rfl
      | some api =>
        simp only [List.filter_append]
        rw [uiEvents_filter_critical e, depsPhase_filter_critical e root]
        rfl

theorem pollLoop_all_fail (health : Nat → Bool) :
    ∀ fuel i, (∀ j, j < fuel → health (i + j) = false) →
      (pollLoop health i fuel).1 = false ∧
      ((pollLoop health i fuel).2).countP isHttpGet = fuel ∧
      ((pollLoop health i fuel).2).countP isSleep = fuel := by
  intro fuel
  induction fuel with
  | zero => intro i h; exact ⟨rfl, rfl, rfl⟩
  | succ n ih =>
    intro i h
    have h0 : health i = false := by simpa using h 0 n.succ_pos
    have hrec := ih (i + 1) (fun j hj => by
      have hx := h (j + 1) (Nat.succ_lt_succ hj)
      have he : i + (j + 1) = i + 1 + j := by omega
      rwa [he] at hx)
    refine ⟨?_, ?_, ?_⟩ <;>
      simp [pollLoop, h0, List.countP_cons, hrec.1, hrec.2.1, hrec.2.2,
        isHttpGet, isSleep]

theorem pollLoop_first_succ (health : Nat → Bool) :
    ∀ d fuel i, d < fuel → (∀ j, j < d → health (i + j) = false) →
      health (i + d) = true →
      (pollLoop health i fuel).1 = true ∧
      ((pollLoop health i fuel).2).countP isHttpGet = d + 1 ∧
      ((pollLoop health i fuel).2).countP isSleep = d := by
  intro d
  induction d with
  | zero =>
    intro fuel i hlt hfail hsucc
    cases fuel with
    | zero => exact absurd hlt (by omega)
    | succ n =>
      have h0 : health i = true := by simpa using hsucc
      refine ⟨?_, ?_, ?_⟩ <;>
        simp [pollLoop, h0, List.countP_cons, isHttpGet, isSleep]
  | succ d ih =>
    intro fuel i hlt hfail hsucc
    cases fuel with
    | zero => exact absurd hlt (by omega)
    | succ n =>
      have h0 : health i = false := by simpa using hfail 0 (Nat.succ_pos d)
      have hrec := ih n (i + 1) (by omega)
        (fun j hj => by
          have hx := hfail (j + 1) (Nat.succ_lt_succ hj)
          have he : i + (j + 1) = i + 1 + j := by omega
          rwa [he] at hx)
        (by
          have he : i + (d + 1) = i + 1 + d := by omega
          rwa [he] at hsucc)
      refine ⟨?_, ?_, ?_⟩ <;>
        simp [pollLoop, h0, List.countP_cons, hrec.1, hrec.2.1, hrec.2.2,
          isHttpGet, isSleep]

theorem pollLoop_sleep_len (health : Nat → Bool) :
    ∀ fuel i n, Event.sleepMs n ∈ (pollLoop health i fuel).2 → n = 500 := by
  intro fuel
  induction fuel with
  | zero => intro i n h; cases h
  | succ k ih =>
    intro i n h
    by_cases hh : health i
    · simp [pollLoop, hh] at h
    · have h0 : health i = false := by simpa using hh
      simp [pollLoop, h0, List.mem_cons] at h
      rcases h with h | h
      · exact h
      · exact ih (i + 1) n h

theorem firstExisting_none_iff (pexists : String → Bool) :
    ∀ l, firstExisting pexists l = none ↔ ∀ p ∈ l, pexists p = false := by
  intro l
  induction l with
  | nil => simp [firstExisting]
  | cons a t ih =>
    by_cases h : pexists a
    · simp [firstExisting, h]
    · simp [firstExisting, h, ih]

theorem firstExisting_mem (pexists : String → Bool) :
    ∀ l p, firstExisting pexists l = some p → p ∈ l ∧ pexists p = true := by
  intro l
  induction l with
  | nil => intro p h; cases h
  | cons a t ih =>
    intro p h
    by_cases ha : pexists a
    · simp [firstExisting, ha] at h
      subst h
      exact ⟨List.mem_cons_self a t, ha⟩
    · simp only [firstExisting, ha, if_false] at h
      rcases ih p h with ⟨hm, hp⟩
      exact ⟨List.mem_cons_of_mem a hm, hp⟩

theorem firstExisting_first (pexists : String → Bool) :
    ∀ pre p post, (∀ q ∈ pre, pexists q = false) → pexists p = true →
      firstExisting pexists (pre ++ p :: post) = some p := by
  intro pre
  induction pre with
  | nil => intro p post hpre hp; simp [firstExisting, hp]
  | cons a t ih =>
    intro p post hpre hp
    have ha : pexists a = false := hpre a (List.mem_cons_self a t)
    simp only [List.cons_append, firstExisting, ha, Bool.false_eq_true, if_false]
    exact ih p post (fun q hq => hpre q (List.mem_cons_of_mem a hq)) hp

theorem deps_go_spawns (importOk : String → Bool) (py : String) :
    ∀ mods, spawnsOf (deps_missing_go importOk py mods).2 =
      (checkedMods importOk mods).map (checkInv py) := by
  intro mods
  induction mods with
  | nil => rfl
  | cons m rest ih =>
    by_cases h : importOk m
    · simp [deps_missing_go, h, checkedMods, spawnsOf, List.filterMap_cons]
      simpa [spawnsOf] using ih
    · simp [deps_missing_go, h, checkedMods, spawnsOf, List.filterMap_cons]

theorem deps_go_false_iff (importOk : String → Bool) (py : String) :
    ∀ mods, (deps_missing_go importOk py mods).1 = false ↔
      ∀ m ∈ mods, importOk m = true := by
  intro mods
  induction mods with
  | nil => simp [deps_missing_go]
  | cons m rest ih =>
    by_cases h : importOk m
    · simp [deps_missing_go, h, ih]
    · simp [deps_missing_go, h]

theorem checkedMods_first_fail (importOk : String → Bool) :
    ∀ pre m post, (∀ x ∈ pre, importOk x = true) → importOk m = false →
      checkedMods importOk (pre ++ m :: post) = pre ++ [m] := by
  intro pre
  induction pre with
  | nil => intro m post hpre hm; simp [checkedMods, hm]
  | cons a t ih =>
    intro m post hpre hm
    have ha : importOk a = true := hpre a (List.mem_cons_self a t)
    simp only [List.cons_append, checkedMods, ha, if_true, List.append_eq]
    rw [ih m post (fun x hx => hpre x (List.mem_cons_of_mem a hx)) hm]

theorem pjoin_ne_empty (a b : String) : pjoin a b ≠ "" := by
  intro h
  have hl : (pjoin a b).length = 0 := by rw [h]; rfl
  rw [pjoin, String.length_append, String.length_append] at hl
  have h1 : ("/" : String).length = 1 := rfl
  omega

theorem pythonCandidates_shape (isWindows : Bool) (root : String) :
    ∀ p ∈ pythonCandidates isWindows root, ∃ c, p = pjoin root c := by
  intro p hp
  cases isWindows <;> simp [pythonCandidates] at hp <;>
    rcases hp with h | h <;> exact ⟨_, h⟩

/-- C8: interpreter resolution tries the platform-specific candidates in
their fixed preference order and returns the first candidate that
exists; when no candidate exists it returns the bare fallback command
"python"; the result is never the empty string, and when some candidate
exists the returned path exists on the filesystem.  The function is a
pure computation with no failure mode. -/
theorem c8_resolver (isWindows : Bool) (pexists : String → Bool) (root : String) :
    resolve_python_path isWindows pexists root ≠ "" ∧
    (∀ pre p post, pythonCandidates isWindows root = pre ++ p :: post →
      (∀ q ∈ pre, pexists q = false) → pexists p = true →
      resolve_python_path isWindows pexists root = p) ∧
    ((∀ p ∈ pythonCandidates isWindows root, pexists p = false) →
      resolve_python_path isWindows pexists root = "python") ∧
    ((∃ p ∈ pythonCandidates isWindows root, pexists p = true) →
      pexists (resolve_python_path isWindows pexists root) = true) := by
  refine ⟨?_, ?_, ?_, ?_⟩
  · unfold resolve_python_path
    cases hf : firstExisting pexists (pythonCandidates isWindows root) with
    | none => decide
    | some p =>
      have hm := (firstExisting_mem pexists _ p hf).1
      obtain ⟨c, hc⟩ := pythonCandidates_shape isWindows root p hm
      simpa [hc] using pjoin_ne_empty root c
  · intro pre p post hdec hpre hp
    unfold resolve_python_path
    rw [hdec, firstExisting_first pexists pre p post hpre hp]
  · intro hall
    unfold resolve_python_path
    rw [(firstExisting_none_iff pexists _).mpr hall]
  · rintro ⟨p, hp, he⟩
    unfold resolve_python_path
    cases hf : firstExisting pexists (pythonCandidates isWindows root) with
    | none =>
      have := (firstExisting_none_iff pexists _).mp hf p hp
      rw [this] at he
      cases he
    | some q => exact (firstExisting_mem pexists _ q hf).2

/-- Witness for c8_resolver: with only the venv candidate existing, the
resolver skips the first candidate and returns the second. -/
theorem c8_resolver_witness :
    (∀ q ∈ [pjoin "/app/suhana" "../.venv/bin/python"], demoExists q = false) ∧
    demoExists (pjoin "/app/suhana" "../venv/bin/python") = true ∧
    resolve_python_path false demoExists "/app/suhana" =
      pjoin "/app/suhana" "../venv/bin/python" :=
  ⟨by decide, by decide,
   (c8_resolver false demoExists "/app/suhana").2.1
     [pjoin "/app/suhana" "../.venv/bin/python"]
     (pjoin "/app/suhana" "../venv/bin/python") []
     (by decide) (by decide) (by decide)⟩

/-- C10: if the pointer-position query fails, the window-geometry helper
performs no action at all — no position change, no fallback centering,
no log — and the move-to-center fallback fires exactly when the pointer
position was obtained but no display resolved from that point. -/
theorem c10_center_fallback (mfp : Int → Int → Except Unit (Option Monitor))
    (os : Except Unit (Nat × Nat)) :
    center_window none mfp os = [] ∧
    (∀ c : Int × Int,
      Event.moveCenter ∈ center_window (some c) mfp os ↔
        mfp c.1 c.2 = Except.error () ∨ mfp c.1 c.2 = Except.ok none) := by
  refine ⟨rfl, ?_⟩
  intro c
  cases hm : mfp c.1 c.2 with
  | error u => cases u; simp [center_window, hm]
  | ok o =>
    cases o with
    | none => simp [center_window, hm]
    | some mon =>
      cases hs : os with
      | error u => simp [center_window, hm, hs]
      | ok s => simp [center_window, hm, hs]

/-- Witness for c10_center_fallback: a failed pointer query leaves the
trace empty. -/
theorem c10_center_fallback_witness :
    center_window none (fun _ _ => Except.ok none) (Except.error ()) = [] :=
  (c10_center_fallback (fun _ _ => Except.ok none) (Except.error ())).1

/-- C6: each relayed line yields exactly one event, routed by the
readiness-flag value observed when the line is processed — a backend-log
event on the splash surface while the flag is false, console output once
it is true, with stderr lines becoming error-level output and stdout
lines normal output. -/
theorem c6_relay_routing (isErr : Bool) (input : List (String × Bool)) :
    relayTrace isErr input = input.map (fun p => relayLine isErr p.2 p.1) ∧
    (∀ flag line,
      (relayLine isErr flag line =
          Event.emitEvent "splashscreen" "backend-log" line ↔ flag = false) ∧
      (relayLine isErr flag line = Event.logErr line ↔
          flag = true ∧ isErr = true) ∧
      (relayLine isErr flag line = Event.logOut line ↔
          flag = true ∧ isErr = false)) := by
  constructor
  · induction input with
    | nil => rfl
    | cons p rest ih => simp [relayTrace, ih]
  · intro flag line
    cases flag <;> cases isErr <;> simp [relayLine]

/-- Witness for c6_relay_routing on a concrete stderr line processed
after the readiness transition. -/
theorem c6_relay_routing_witness :
    relayLine true true "boom" = Event.logErr "boom" :=
  ((c6_relay_routing true []).2 true "boom").2.1.mpr ⟨rfl, rfl⟩

/-- C5: the dependency check invokes the interpreter once per module in
list order with both output streams suppressed, reports missing at the
first module whose import fails without invoking the interpreter for any
later module, and reports satisfied exactly when every module imports
successfully. -/
theorem c5_deps_check (importOk : String → Bool) (python : String)
    (mods : List String) :
    deps_missing importOk python = deps_missing_go importOk python MUST_HAVE_MODULES ∧
    spawnsOf (deps_missing_go importOk python mods).2 =
      (checkedMods importOk mods).map (checkInv python) ∧
    ((deps_missing_go importOk python mods).1 = false ↔
      ∀ m ∈ mods, importOk m = true) ∧
    (∀ inv ∈ spawnsOf (deps_missing_go importOk python mods).2,
      inv.stdout = Stdio.null ∧ inv.stderr = Stdio.null) ∧
    (∀ pre m post, mods = pre ++ m :: post → (∀ x ∈ pre, importOk x = true) →
      importOk m = false →
      spawnsOf (deps_missing_go importOk python mods).2 =
        (pre ++ [m]).map (checkInv python) ∧
      (deps_missing_go importOk python mods).1 = true) := by
  refine ⟨rfl, deps_go_spawns importOk python mods,
    deps_go_false_iff importOk python mods, ?_, ?_⟩
  · intro inv hinv
    rw [deps_go_spawns importOk python mods] at hinv
    obtain ⟨m, hm, heq⟩ := List.mem_map.mp hinv
    rw [← heq]
    exact ⟨rfl, rfl⟩
  · intro pre m post hdec hpre hm
    subst hdec
    constructor
    · rw [deps_go_spawns importOk python _,
        checkedMods_first_fail importOk pre m post hpre hm]
    · cases hval : (deps_missing_go importOk python (pre ++ m :: post)).1 with
      | true => rfl
      | false =>
        have := (deps_go_false_iff importOk python _).mp hval m
          (by simp)
        rw [this] at hm
        cases hm

/-- Witness for c5_deps_check: with only fastapi importable, the check
stops at uvicorn and never invokes pydantic. -/
theorem c5_deps_check_witness :
    spawnsOf (deps_missing_go demoImportOk "python" MUST_HAVE_MODULES).2 =
      (["fastapi"] ++ ["uvicorn"]).map (checkInv "python") ∧
    (deps_missing_go demoImportOk "python" MUST_HAVE_MODULES).1 = true :=
  (c5_deps_check demoImportOk "python" MUST_HAVE_MODULES).2.2.2.2
    ["fastapi"] "uvicorn" ["pydantic"] (by decide) (by decide) (by decide)

/-- C4: the readiness gate makes at most 20 HTTP calls with a fixed
500 ms sleep after every failed call; if the endpoint first succeeds on
attempt k (1-based, k at most 20) the gate makes exactly k calls and
k - 1 inter-attempt sleeps and resolves ready; if no attempt succeeds it
makes exactly 20 calls and 20 sleeps — 10000 ms of accumulated delay —
and resolves timeout. -/
theorem c4_poll_schedule (health : Nat → Bool) (k : Nat)
    (hk1 : 1 ≤ k) (hk : k ≤ 20) :
    ((∀ j, j < k - 1 → health j = false) → health (k - 1) = true →
      (wait_for_api_ready health).1 = true ∧
      ((wait_for_api_ready health).2).countP isHttpGet = k ∧
      ((wait_for_api_ready health).2).countP isSleep = k - 1) ∧
    ((∀ j, j < 20 → health j = false) →
      (wait_for_api_ready health).1 = false ∧
      ((wait_for_api_ready health).2).countP isHttpGet = 20 ∧
      ((wait_for_api_ready health).2).countP isSleep = 20 ∧
      ((wait_for_api_ready health).2).countP isSleep * 500 = 10000) ∧
    (∀ n, Event.sleepMs n ∈ (wait_for_api_ready health).2 → n = 500) := by
  refine ⟨?_, ?_, ?_⟩
  · intro hfail hsucc
    have hs := pollLoop_first_succ health (k - 1) 20 0 (by omega)
      (by simpa using hfail) (by simpa using hsucc)
    unfold wait_for_api_ready
    refine ⟨hs.1, ?_, hs.2.2⟩
    rw [hs.2.1]
    omega
  · intro hfail
    have hs := pollLoop_all_fail health 20 0 (by simpa using hfail)
    unfold wait_for_api_ready
    exact ⟨hs.1, hs.2.1, hs.2.2, by rw [hs.2.2]⟩
  · intro n hn
    exact pollLoop_sleep_len health 20 0 n hn

/-- Witness for c4_poll_schedule: success on the fifth attempt gives
five calls and four sleeps; no success gives twenty calls and twenty
sleeps. -/
theorem c4_poll_schedule_witness :
    ((wait_for_api_ready health5).1 = true ∧
      ((wait_for_api_ready health5).2).countP isHttpGet = 5 ∧
      ((wait_for_api_ready health5).2).countP isSleep = 4) ∧
    ((wait_for_api_ready (fun _ => false)).1 = false ∧
      ((wait_for_api_ready (fun _ => false)).2).countP isHttpGet = 20 ∧
      ((wait_for_api_ready (fun _ => false)).2).countP isSleep = 20 ∧
      ((wait_for_api_ready (fun _ => false)).2).countP isSleep * 500 = 10000) :=
  ⟨(c4_poll_schedule health5 5 (by decide) (by decide)).1
      (by decide) (by decide),
   (c4_poll_schedule (fun _ => false) 1 (by decide) (by decide)).2.1
      (fun _ _ => rfl)⟩

/-- C3: whatever the poll outcome, the gate thread ends with the same
terminal action — store true into the readiness flag, close the splash
window, show the main window, in this order — while everything before it
is UI-noncritical; a timeout is reported only as a console error line
and the main window still appears. -/
theorem c3_gate_terminal (health : Nat → Bool) :
    (∃ pre, gateThread health =
        pre ++ [Event.storeFlag true, Event.closeWindow "splashscreen",
                Event.showWindow "main"] ∧
      pre.filter criticalEv = []) ∧
    Event.showWindow "main" ∈ gateThread health ∧
    ((wait_for_api_ready health).1 = false →
      Event.logErr "Backend not responding in time" ∈ gateThread health) := by
  refine ⟨?_, ?_, ?_⟩
  · refine ⟨(wait_for_api_ready health).2 ++
      (if (wait_for_api_ready health).1 then [Event.logOut "Backend ready"]
       else [Event.logErr "Backend not responding in time"]), ?_, ?_⟩
    · rw [gateThread, List.append_assoc]
    · rw [List.filter_append]
      unfold wait_for_api_ready
      rw [pollLoop_filter criticalEv health rfl (fun _ => rfl) 20 0]
      split <;> simp [List.filter_cons]
  · simp [gateThread]
  · intro h
    simp [gateThread, h]

/-- Witness for c3_gate_terminal: with a never-ready endpoint the
timeout is logged and the main window is still shown. -/
theorem c3_gate_terminal_witness :
    Event.showWindow "main" ∈ gateThread (fun _ => false) ∧
    Event.logErr "Backend not responding in time" ∈ gateThread (fun _ => false) :=
  ⟨(c3_gate_terminal (fun _ => false)).2.1,
   (c3_gate_terminal (fun _ => false)).2.2
     (pollLoop_all_fail (fun _ => false) 20 0 (fun _ _ => rfl)).1⟩

/-- C2: in every completed run — any interleaving of the two relay
threads and the gate thread after a successful setup — the UI-critical
projection of the whole trace is exactly one store of true into the
readiness flag, then the splash-hide, then the main-show: the flag
transitions once and never back, both window actions happen exactly
once, together, after the transition, and only the gate performs
them. -/
theorem c2_critical_trace (e : SetupEnv) (outL errL : List (String × Bool))
    (health : Nat → Bool) (z : List Event)
    (hrun : RunTrace e outL errL health z) :
    z.filter criticalEv =
      [Event.storeFlag true, Event.closeWindow "splashscreen",
       Event.showWindow "main"] := by
  obtain ⟨hok, m, w, hm, hw, hz⟩ := hrun
  subst hz
  rw [List.filter_append, setup_filter_critical e, List.nil_append]
  have h1 := merge2_filter criticalEv hm
  rw [relayTrace_filter_critical, relayTrace_filter_critical] at h1
  have hm0 : m.filter criticalEv = [] := merge2_nil_left_eq h1 rfl
  have h2 := merge2_filter criticalEv hw
  rw [hm0, gateThread_filter_critical] at h2
  exact merge2_nil_left_eq h2 rfl

/-- Witness for c2_critical_trace: a concrete complete run over
simpleEnv whose critical projection is the three-event handoff. -/
theorem c2_critical_trace_witness :
    RunTrace simpleEnv demoOut demoErr (fun _ => true) demoRun ∧
    demoRun.filter criticalEv =
      [Event.storeFlag true, Event.closeWindow "splashscreen",
       Event.showWindow "main"] :=
  ⟨⟨by decide, relayTrace false demoOut ++ relayTrace true demoErr,
      (relayTrace false demoOut ++ relayTrace true demoErr) ++
        gateThread (fun _ => true),
      merge2_self_append _ _, merge2_self_append _ _, rfl⟩,
   c2_critical_trace simpleEnv demoOut demoErr (fun _ => true) demoRun
     ⟨by decide, relayTrace false demoOut ++ relayTrace true demoErr,
      (relayTrace false demoOut ++ relayTrace true demoErr) ++
        gateThread (fun _ => true),
      merge2_self_append _ _, merge2_self_append _ _, rfl⟩⟩

/-- C1 as stated is false on the code: in a concrete environment where
canonicalization of the worker script fails, the run does abort, but the
trace before the abort already contains the splash-window show of line
129 and the dependency-check child invocations of line 146. -/
theorem c1_counterexample :
    (setup badCanonEnv).2 = some "Could not resolve api_server.py path" ∧
    Event.showWindow "splashscreen" ∈ (setup badCanonEnv).1 ∧
    Event.spawn (checkInv "python" "fastapi") ∈ (setup badCanonEnv).1 :=
  ⟨by decide, by decide, by decide⟩

/-- C1 (amended): when the worker script path cannot be canonicalized
the run aborts with the canonicalization diagnostic, before the worker
process is spawned (no piped-stdout spawn occurs) and before the main
window is shown — though the splash window has already been shown and
dependency-check interpreter invocations may already have run. -/
theorem c1_abort_scope (e : SetupEnv) (c root : String)
    (hc : e.cwd = some c) (hp : e.parentOfCwd = some root)
    (hcanon : e.canon = none) :
    (setup e).2 = some "Could not resolve api_server.py path" ∧
    ((setup e).1).filter pipedSpawn = [] ∧
    ((setup e).1).filter mainShow = [] := by
  unfold setup
  rw [hc, hp, hcanon]
  refine ⟨rfl, ?_, ?_⟩
  · rw [List.filter_append,
      uiEvents_filter pipedSpawn (fun _ _ => rfl) rfl rfl e,
      depsPhase_filter pipedSpawn (fun _ _ => rfl) (fun _ _ => rfl)
        (fun _ => rfl) (fun _ => rfl) e root]
    rfl
  · rw [List.filter_append,
      uiEvents_filter mainShow (fun _ _ => rfl) rfl mainShow_showSplash e,
      depsPhase_filter mainShow (fun _ _ => rfl) (fun _ _ => rfl)
        (fun _ => rfl) (fun _ => rfl) e root]
    rfl

/-- Witness for c1_abort_scope at the concrete failing environment. -/
theorem c1_abort_scope_witness :
    badCanonEnv.cwd = some "/app/suhana/tauri-ui" ∧
    ((setup badCanonEnv).2 = some "Could not resolve api_server.py path" ∧
      ((setup badCanonEnv).1).filter pipedSpawn = [] ∧
      ((setup badCanonEnv).1).filter mainShow = []) :=
  ⟨by decide,
   c1_abort_scope badCanonEnv "/app/suhana/tauri-ui" "/app/suhana"
     (by decide) (by decide) (by decide)⟩

/-- C7: dependency installation is best-effort and never fatal.  With no
manifest the install step performs no child invocation, logs the skip
message and returns success; with a manifest and a failing exit status
the failure is only logged and success is still returned; an io error is
propagated but only logged by the caller, and in every such environment
the run still reaches the worker spawn. -/
theorem c7_install_best_effort (pexists : String → Bool) (python root : String)
    (e : SetupEnv) (c proot api : String) :
    (pexists (pjoin root "../requirements.txt") = false →
      ∀ pip, install_requirements pexists pip python root =
        (Except.ok (),
         [Event.logOut "ℹrequirements.txt not found, skipping installation"])) ∧
    (pexists (pjoin root "../requirements.txt") = true →
      install_requirements pexists (Except.ok false) python root =
        (Except.ok (), [Event.spawn (pipInv python root),
                        Event.logErr "Failed to install requirements.txt"])) ∧
    (∀ msg, pexists (pjoin root "../requirements.txt") = true →
      install_requirements pexists (Except.error msg) python root =
        (Except.error msg, [Event.spawn (pipInv python root)])) ∧
    (e.cwd = some c → e.parentOfCwd = some proot → e.canon = some api →
      e.pexists (pjoin proot "../requirements.txt") = true →
      (e.manifestPip = Except.ok false ∨ ∃ msg, e.manifestPip = Except.error msg) →
      Event.spawn (workerInv (resolve_python_path e.isWindows e.pexists proot)
        api proot) ∈ (setup e).1) := by
  refine ⟨?_, ?_, ?_, ?_⟩
  · intro h pip
    simp [install_requirements, h]
  · intro h
    simp [install_requirements, h]
  · intro msg h
    simp [install_requirements, h]
  · intro hc hp hcanon hman hfail
    unfold setup
    rw [hc, hp, hcanon]
    simp

/-- Witness for c7_install_best_effort: the missing-manifest no-op, and
the worker spawn still reached in an environment with a missing module
and a pip failure. -/
theorem c7_install_best_effort_witness :
    install_requirements (fun _ => false) (Except.ok true) "python" "/app/suhana" =
      (Except.ok (),
       [Event.logOut "ℹrequirements.txt not found, skipping installation"]) ∧
    Event.spawn (workerInv
      (resolve_python_path failedInstallEnv.isWindows failedInstallEnv.pexists
        "/app/suhana")
      "/app/api_server.py" "/app/suhana") ∈ (setup failedInstallEnv).1 :=
  ⟨(c7_install_best_effort (fun _ => false) "python" "/app/suhana"
      failedInstallEnv "/app/suhana/tauri-ui" "/app/suhana" "/app/api_server.py").1
      (by decide) (Except.ok true),
   (c7_install_best_effort (fun _ => false) "python" "/app/suhana"
      failedInstallEnv "/app/suhana/tauri-ui" "/app/suhana" "/app/api_server.py").2.2.2
      (by decide) (by decide) (by decide) (by decide) (Or.inl rfl)⟩

/-- C9: with the environment resolvable, the supervisor records exactly
one piped-stdout spawn — the worker, launched with the canonical script
path and the explicit port-8000 flag, working directory the project
root's parent, both output streams piped — and a spawn failure aborts
the run while still leaving exactly that single spawn attempt (no
retry). -/
theorem c9_spawn_contract (e : SetupEnv) (c root api : String)
    (hc : e.cwd = some c) (hp : e.parentOfCwd = some root)
    (hcanon : e.canon = some api) :
    ((setup e).1).countP pipedSpawn = 1 ∧
    Event.spawn (workerInv (resolve_python_path e.isWindows e.pexists root)
      api root) ∈ (setup e).1 ∧
    (workerInv (resolve_python_path e.isWindows e.pexists root) api root).args =
      [api, "--port", "8000"] ∧
    (workerInv (resolve_python_path e.isWindows e.pexists root) api root).cwd =
      some (pjoin root "..") ∧
    (workerInv (resolve_python_path e.isWindows e.pexists root) api root).stdout =
      Stdio.piped ∧
    (workerInv (resolve_python_path e.isWindows e.pexists root) api root).stderr =
      Stdio.piped ∧
    (e.spawnOk = true → (setup e).2 = none) ∧
    (e.spawnOk = false → (setup e).2 = some "Failed to start Suhana backend") := by
  unfold setup
  rw [hc, hp, hcanon]
  have hui : (uiEvents e).countP pipedSpawn = 0 := by
    rw [List.countP_eq_length_filter,
      uiEvents_filter pipedSpawn (fun _ _ => rfl) rfl rfl e]
    rfl
  have hdp : (depsPhase e root).countP pipedSpawn = 0 := by
    rw [List.countP_eq_length_filter,
      depsPhase_filter pipedSpawn (fun _ _ => rfl) (fun _ _ => rfl)
        (fun _ => rfl) (fun _ => rfl) e root]
    rfl
  refine ⟨?_, ?_, rfl, rfl, rfl, rfl, ?_, ?_⟩
  · rw [List.countP_append, List.countP_append, hui, hdp]
    rfl
  · simp
  · intro h
    simp [h]
  · intro h
    simp [h]

/-- Witness for c9_spawn_contract at simpleEnv: one piped spawn and a
clean setup. -/
theorem c9_spawn_contract_witness :
    ((setup simpleEnv).1).countP pipedSpawn = 1 ∧
    (setup simpleEnv).2 = none :=
  ⟨(c9_spawn_contract simpleEnv "/app/suhana/tauri-ui" "/app/suhana"
      "/app/api_server.py" rfl rfl rfl).1,
   (c9_spawn_contract simpleEnv "/app/suhana/tauri-ui" "/app/suhana"
      "/app/api_server.py" rfl rfl rfl).2.2.2.2.2.2.1 rfl⟩

end Suhana
